import Mathlib

/-!
Verification of the DRAVIS chat frontend (`src/app.js`).

The file shallowly embeds the client-side session orchestrator: the global
`state` object, `sendMessage`, `checkSystemStatus`, `exportChat`,
`deleteDocument`, `escapeHtml` and `formatMessageText`.  The browser event
loop is modelled explicitly: `sendMessage` is split at its single `await`
suspension point into a synchronous phase (`doSend`, everything before the
`fetch` resolves) and a response-handling phase (`sendMessageFinish`),
connected by a list of outstanding requests in a `World`.  JavaScript
truthiness on optional strings (`x || y`, `if (x)`) is modelled by
`jsOrStr` / `jsOrNull` / `jsTruthy`.
-/

namespace Dravis

/-- JS `x || dflt` for an optional string field: `null`/absent and `""` are
falsy, so both fall through to the default. -/
def jsOrStr (v : Option String) (dflt : String) : String :=
  match v with
  | some s => if s = "" then dflt else s
  | none => dflt

/-- JS `x || null` for an optional string: `""` collapses to `null`
(used for `state.currentConversationId || null` in the request body). -/
def jsOrNull (v : Option String) : Option String :=
  match v with
  | some s => if s = "" then none else some s
  | none => none

/-- JS truthiness of an optional string: `null`/absent and `""` are falsy. -/
def jsTruthy (v : Option String) : Bool :=
  match v with
  | some s => !(s == "")
  | none => false

/-- JS `String.prototype.trim()`: strip leading and trailing whitespace,
modelled over the ASCII whitespace characters (space, tab, CR, LF). -/
def jsTrim (s : String) : String :=
  String.mk (((s.toList.dropWhile Char.isWhitespace).reverse.dropWhile
    Char.isWhitespace).reverse)

/-- Message role, `"user"` or `"assistant"` in `addMessageToUI`. -/
inductive Role where
  | user
  | assistant
deriving DecidableEq, Repr

/-- One rendered chat message (one `.message` div in `#messagesContainer`). -/
structure Msg where
  role : Role
  text : String
deriving DecidableEq, Repr

/-- The chat-related DOM state: the `#chatInput` value, whether the
"Start a conversation" placeholder div is the sole child of
`#messagesContainer`, and the appended message divs. -/
structure ChatUI where
  inputValue : String
  placeholder : Bool
  messages : List Msg
deriving DecidableEq, Repr

/-- The part of the global `state` object (plus chat DOM) that `sendMessage`
reads and writes: `state.currentConversationId` and the chat UI. -/
structure AppState where
  ui : ChatUI
  currentConversationId : Option String
deriving DecidableEq, Repr

/-- Body of the `POST /chat` request issued by `sendMessage`:
`{ message, conversation_id: state.currentConversationId || null }`. -/
structure ChatRequest where
  message : String
  conversation_id : Option String
deriving DecidableEq, Repr

/-- A world: the app state plus the outstanding (un-resolved) chat requests
and a ghost counter of every request ever issued. -/
structure World where
  app : AppState
  pending : List ChatRequest
  issued : Nat
deriving DecidableEq, Repr

/-- `addMessageToUI(role, text)` (`src/app.js:212`): if the container's only
child is the placeholder, clear it; then append the new message div. -/
def addMessageToUI (s : ChatUI) (role : Role) (text : String) : ChatUI :=
  let s := if s.placeholder ∧ s.messages = [] then { s with placeholder := false } else s
  { s with messages := s.messages ++ [⟨role, text⟩] }

/-- `newConversation()` (`src/app.js:238`): `state.currentConversationId = null`
and the container is reset to the placeholder; the input box is untouched. -/
def newConversation (w : World) : World :=
  { w with app := { ui := { inputValue := w.app.ui.inputValue
                            placeholder := true
                            messages := [] }
                    currentConversationId := none } }

/-- A fresh world as produced at startup: `newConversation` on empty state. -/
def initialWorld : World :=
  newConversation { app := { ui := { inputValue := "", placeholder := false, messages := [] }
                             currentConversationId := none }
                    pending := [], issued := 0 }

/-- The user typing into `#chatInput`. -/
def setInput (w : World) (s : String) : World :=
  { w with app := { w.app with ui := { w.app.ui with inputValue := s } } }

/-- Synchronous phase of `sendMessage()` (`src/app.js:256-274`), everything up
to the `fetch`: read and trim `input.value`; if empty, return with no effect;
otherwise clear the input, append the user message via `addMessageToUI`, and
issue the `POST /chat` request (which becomes outstanding).  There is no
guard on already-outstanding requests anywhere in the function. -/
def doSend (w : World) : World :=
  if jsTrim w.app.ui.inputValue = "" then w
  else
    { app := { ui := addMessageToUI { w.app.ui with inputValue := "" } .user
                       (jsTrim w.app.ui.inputValue)
               currentConversationId := w.app.currentConversationId }
      pending := w.pending ++ [⟨jsTrim w.app.ui.inputValue, jsOrNull w.app.currentConversationId⟩]
      issued := w.issued + 1 }

/-- Parsed JSON body of a `/chat` response; every field is optional.  The
`detail` field only feeds the message of the thrown `Error`, which the
`catch` block discards, so it never reaches the UI. -/
structure ChatData where
  response : Option String
  conversation_id : Option String
  detail : Option String
deriving DecidableEq, Repr

/-- Outcome of the awaited `fetch` in `sendMessage`: the promise rejects
(network error), or a response arrives with HTTP-success flag `ok` and a body
that either parses to a `ChatData` or fails to parse (`none`; the code's
`res.json().catch(() => ({}))` then yields the empty object). -/
inductive ChatOutcome where
  | networkError
  | response (ok : Bool) (body : Option ChatData)
deriving DecidableEq, Repr

/-- The fixed assistant-role failure message appended by the `catch` block of
`sendMessage` (`src/app.js:290-294`). -/
def chatFailureText : String :=
  "⚠️ Failed to reach LangChain backend.<br><br>" ++
    "Make sure it's running:<br><code>python langchain_backend.py</code>"

/-- Response-handling phase of `sendMessage()` (`src/app.js:276-295`):
`data = await res.json().catch(() => ({}))`; if `!res.ok` throw (caught below);
if `data.conversation_id` is truthy, overwrite `state.currentConversationId`
with it — there is no check that the current id is null; append the assistant
message `data.response || "(empty response)"`.  Any throw (network error or
non-ok status) lands in the `catch`, which appends `chatFailureText` and
touches nothing else. -/
def sendMessageFinish (app : AppState) (outcome : ChatOutcome) : AppState :=
  match outcome with
  | .networkError =>
      { app with ui := addMessageToUI app.ui .assistant chatFailureText }
  | .response ok body =>
      let data : ChatData := body.getD ⟨none, none, none⟩
      if ok then
        let app1 : AppState :=
          if jsTruthy data.conversation_id then
            { app with currentConversationId := data.conversation_id }
          else app
        { app1 with ui := addMessageToUI app1.ui .assistant (jsOrStr data.response "(empty response)") }
      else
        { app with ui := addMessageToUI app.ui .assistant chatFailureText }

/-- Resolution of the oldest outstanding request: the world's app state is
updated by `sendMessageFinish` and the request stops being outstanding. -/
def deliverResponse (w : World) (outcome : ChatOutcome) : World :=
  { w with app := sendMessageFinish w.app outcome, pending := w.pending.tail }

/-- The text of the assistant message that `sendMessage` appends for a given
fetch outcome: the fixed failure text on a throw (network error or `!res.ok`),
otherwise `data.response || "(empty response)"` on the parsed (or defaulted)
body. -/
def assistantReplyText : ChatOutcome → String
  | .networkError => chatFailureText
  | .response ok body =>
    if ok then jsOrStr (body.getD ⟨none, none, none⟩).response "(empty response)"
    else chatFailureText

/-! ## Startup liveness probe (`checkSystemStatus`, `src/app.js:60-78`) -/

/-- Parsed JSON body of the `GET /` probe; only `model` is consumed. -/
structure StatusData where
  model : Option String
deriving DecidableEq, Repr

/-- Outcome of the probe's `fetch`: rejection (network error), or a response
with HTTP-success flag `ok` and a body that parses (`some`) or does not
(`none`).  The probe's `await res.json()` has no `.catch`, so a parse failure
throws. -/
inductive StatusOutcome where
  | networkError
  | response (ok : Bool) (body : Option StatusData)
deriving DecidableEq, Repr

/-- The three status indicator texts set by `checkSystemStatus`. -/
structure StatusDisplay where
  backend : String
  rag : String
  model : String
deriving DecidableEq, Repr

/-- `checkSystemStatus()` (`src/app.js:60-78`): `fetch` then `res.json()`
inside a `try`; on any throw (network failure or body-parse failure) the
`catch` shows the offline texts.  `res.ok` / the HTTP status is never
consulted, and the whole body is wrapped in `try`/`catch`, so the function
never throws to its caller. -/
def checkSystemStatus (outcome : StatusOutcome) : StatusDisplay :=
  match outcome with
  | .networkError => { backend := "✗ Offline", rag := "-", model := "-" }
  | .response _ none => { backend := "✗ Offline", rag := "-", model := "-" }
  | .response _ (some data) =>
      { backend := "✓ Online"
        rag := "RAG not configured"
        model := jsOrStr data.model "Unknown model" }

/-! ## Export (`exportChat`, `src/app.js:437-459`) -/

/-- Outcome of the export `fetch`: rejection with an error message, or a
response with HTTP-success flag `ok` (on success the blob is delivered). -/
inductive ExportOutcome where
  | networkError (msg : String)
  | response (ok : Bool)
deriving DecidableEq, Repr

/-- Observable effects of one `exportChat()` call: how many requests were
issued, which `alert`s were shown, and which files were delivered. -/
structure ExportEffects where
  requests : Nat
  alerts : List String
  downloads : List String
deriving DecidableEq, Repr

/-- `exportChat()` (`src/app.js:437-459`): if `state.currentConversationId`
is falsy, alert "No conversation to export." and return without a request;
otherwise `POST /chat/{id}/export`; `!res.ok` alerts "Failed to export chat."
with no file; a thrown network error alerts "Export failed: " plus the error
message; on success the blob is delivered as `conversation_<id>.md`. -/
def exportChat (id : Option String) (outcome : ExportOutcome) : ExportEffects :=
  if !jsTruthy id then
    { requests := 0, alerts := ["No conversation to export."], downloads := [] }
  else
    match outcome with
    | .networkError msg =>
        { requests := 1, alerts := ["Export failed: " ++ msg], downloads := [] }
    | .response false =>
        { requests := 1, alerts := ["Failed to export chat."], downloads := [] }
    | .response true =>
        { requests := 1, alerts := []
          downloads := ["conversation_" ++ id.getD "" ++ ".md"] }

/-! ## Document deletion (`deleteDocument`, `src/app.js:410-423`) -/

/-- Metadata stored per document in `state.documents` (from the upload
response).  The size is carried as a display string; no claim inspects it. -/
structure DocumentMetadata where
  filename : String
  file_size_mb : String
  upload_time : String
deriving DecidableEq, Repr

/-- Outcome of the `DELETE /documents/{doc_id}` fetch. -/
inductive DeleteOutcome where
  | networkError (msg : String)
  | response (ok : Bool)
deriving DecidableEq, Repr

/-- Result of one `deleteDocument()` call: the registry afterwards, how many
requests were issued, and the `alert`s shown. -/
structure DeleteResult where
  documents : List (String × DocumentMetadata)
  requests : Nat
  alerts : List String
deriving DecidableEq, Repr

/-- `deleteDocument(doc_id)` (`src/app.js:410-423`): if `confirm(...)` is
declined, return with no request and no registry change; otherwise issue the
DELETE; `!res.ok` throws `Error("Delete failed")` and any throw is caught and
alerted as "Error deleting document: " plus the message, leaving the registry
untouched; only on `res.ok` is `delete state.documents[doc_id]` executed. -/
def deleteDocument (docs : List (String × DocumentMetadata)) (doc_id : String)
    (confirmed : Bool) (outcome : DeleteOutcome) : DeleteResult :=
  if !confirmed then
    { documents := docs, requests := 0, alerts := [] }
  else
    match outcome with
    | .networkError msg =>
        { documents := docs, requests := 1
          alerts := ["Error deleting document: " ++ msg] }
    | .response false =>
        { documents := docs, requests := 1
          alerts := ["Error deleting document: Delete failed"] }
    | .response true =>
        { documents := docs.filter (fun p => !(p.1 == doc_id))
          requests := 1, alerts := [] }

/-- A one-entry document registry as produced by the spec's sample upload. -/
def sampleRegistry : List (String × DocumentMetadata) :=
  [("d1", { filename := "report.pdf", file_size_mb := "1.2"
            upload_time := "2024-01-01T00:00:00Z" })]

/-! ## Text renderer (`escapeHtml` and `formatMessageText`, `src/app.js:192-210`)

`escapeHtml` sets `div.textContent` and reads back `div.innerHTML`, which
escapes exactly `&`, `<` and `>` in a text node.  `formatMessageText` then
chains seven global regex replacements; each is embedded as a left-to-right
scan over the character list, matching the JS regex engine: a failed match
attempt advances one position, a successful one resumes after the replacement
(`lastIndex`), and `.` does not match a newline.  The scanners that restart
after a replacement take a fuel argument (the wrappers pass `length + 1`,
which is always sufficient since every step consumes at least one input
character). -/

/-- Escaping of one character as done by `innerHTML` on a text node. -/
def escapeHtmlChar (c : Char) : List Char :=
  if c = '&' then "&amp;".toList
  else if c = '<' then "&lt;".toList
  else if c = '>' then "&gt;".toList
  else [c]

/-- `escapeHtml(str)` (`src/app.js:192-196`). -/
def escapeHtml (s : String) : String :=
  String.mk ((s.toList.map escapeHtmlChar).flatten)

/-- Non-greedy search for the closing `**` of `/\*\*(.*?)\*\*/`: the shortest
newline-free span followed by `**`.  Returns the span and the rest. -/
def boldClose : List Char → Option (List Char × List Char)
  | [] => none
  | [_] => none
  | a :: b :: t =>
    if a = '*' ∧ b = '*' then some ([], t)
    else if a = '\n' then none
    else (boldClose (b :: t)).map (fun pr => (a :: pr.1, pr.2))

/-- Scan for `/\*\*(.*?)\*\*/g` replaced by `<b>$1</b>`. -/
def applyBoldF : Nat → List Char → List Char
  | 0, l => l
  | _ + 1, [] => []
  | fuel + 1, '*' :: '*' :: t =>
    match boldClose t with
    | some (content, rest) =>
        "<b>".toList ++ content ++ "</b>".toList ++ applyBoldF fuel rest
    | none => '*' :: applyBoldF fuel ('*' :: t)
  | fuel + 1, c :: t => c :: applyBoldF fuel t

def applyBold (l : List Char) : List Char := applyBoldF (l.length + 1) l

/-- Non-greedy search for the single closing char of `/\*(.*?)\*/` or the
closing backtick analogue: shortest newline-free span followed by `close`. -/
def singleClose (close : Char) : List Char → Option (List Char × List Char)
  | [] => none
  | a :: t =>
    if a = close then some ([], t)
    else if a = '\n' then none
    else (singleClose close t).map (fun pr => (a :: pr.1, pr.2))

/-- Scan for `/\*(.*?)\*/g` replaced by `<i>$1</i>`. -/
def applyItalicF : Nat → List Char → List Char
  | 0, l => l
  | _ + 1, [] => []
  | fuel + 1, '*' :: t =>
    match singleClose '*' t with
    | some (content, rest) =>
        "<i>".toList ++ content ++ "</i>".toList ++ applyItalicF fuel rest
    | none => '*' :: applyItalicF fuel t
  | fuel + 1, c :: t => c :: applyItalicF fuel t

def applyItalic (l : List Char) : List Char := applyItalicF (l.length + 1) l

/-- Non-greedy search for the closing ``` of the fenced-code regex; `[\s\S]`
matches newlines, so there is no newline restriction. -/
def fenceClose : List Char → Option (List Char × List Char)
  | '`' :: '`' :: '`' :: t => some ([], t)
  | a :: t => (fenceClose t).map (fun pr => (a :: pr.1, pr.2))
  | [] => none

/-- Scan for ``` fenced blocks replaced by `<pre><code>$1</code></pre>`. -/
def applyFenceF : Nat → List Char → List Char
  | 0, l => l
  | _ + 1, [] => []
  | fuel + 1, '`' :: '`' :: '`' :: t =>
    match fenceClose t with
    | some (content, rest) =>
        "<pre><code>".toList ++ content ++ "</code></pre>".toList ++ applyFenceF fuel rest
    | none => '`' :: applyFenceF fuel ('`' :: '`' :: t)
  | fuel + 1, c :: t => c :: applyFenceF fuel t

def applyFence (l : List Char) : List Char := applyFenceF (l.length + 1) l

/-- The content of inline code: the maximal nonempty backtick-free run, which
must be followed by a closing backtick (`[^`]+` then a backtick). -/
def inlineClose : List Char → Option (List Char × List Char)
  | [] => none
  | a :: t =>
    if a = '`' then none
    else
      match t with
      | [] => none
      | b :: t2 =>
        if b = '`' then some ([a], t2)
        else (inlineClose (b :: t2)).map (fun pr => (a :: pr.1, pr.2))

/-- Scan for `` /`([^`]+)`/g `` replaced by `<code>$1</code>`. -/
def applyInlineF : Nat → List Char → List Char
  | 0, l => l
  | _ + 1, [] => []
  | fuel + 1, '`' :: t =>
    match inlineClose t with
    | some (content, rest) =>
        "<code>".toList ++ content ++ "</code>".toList ++ applyInlineF fuel rest
    | none => '`' :: applyInlineF fuel t
  | fuel + 1, c :: t => c :: applyInlineF fuel t

def applyInline (l : List Char) : List Char := applyInlineF (l.length + 1) l

/-- Split at every newline (boundaries of `^`/`$` under the `m` flag). -/
def splitNL : List Char → List (List Char)
  | [] => [[]]
  | '\n' :: t => [] :: splitNL t
  | c :: t =>
    match splitNL t with
    | [] => [[c]]
    | h :: r => (c :: h) :: r

/-- Re-join lines with newlines. -/
def joinNL : List (List Char) → List Char
  | [] => []
  | [l] => l
  | l :: r => l ++ '\n' :: joinNL r

/-- `/^- (.*)$/gm` on one line: a leading `- ` becomes the bullet glyph. -/
def dashLine (l : List Char) : List Char :=
  match l with
  | '-' :: ' ' :: t => '•' :: ' ' :: t
  | _ => l

def applyDash (l : List Char) : List Char := joinNL ((splitNL l).map dashLine)

/-- `/\n\n/g` replaced by `<br><br>`. -/
def applyPara : List Char → List Char
  | '\n' :: '\n' :: t => "<br><br>".toList ++ applyPara t
  | c :: t => c :: applyPara t
  | [] => []

/-- `/\n/g` replaced by `<br>`. -/
def applyBreak : List Char → List Char
  | '\n' :: t => "<br>".toList ++ applyBreak t
  | c :: t => c :: applyBreak t
  | [] => []

/-- `formatMessageText(text)` (`src/app.js:198-210`): empty (falsy) text
yields `""`; otherwise `escapeHtml` runs first, then the seven substitutions
in the listed order: bold, italic, fenced code, inline code, leading-dash
bullets, double newline, single newline. -/
def formatMessageText (text : String) : String :=
  if text = "" then ""
  else
    String.mk (applyBreak (applyPara (applyDash (applyInline (applyFence
      (applyItalic (applyBold (escapeHtml text).toList)))))))

/-! ## Helper lemmas -/

/-- `addMessageToUI` always appends exactly the new message div; the
placeholder check only affects the placeholder, never the appended list. -/
theorem addMessageToUI_messages (s : ChatUI) (r : Role) (t : String) :
    (addMessageToUI s r t).messages = s.messages ++ [⟨r, t⟩] := by
  unfold addMessageToUI
  split <;> rfl

/-- Synchronous phase of a send with non-empty trimmed input: the user
message is appended, the request becomes outstanding, the ghost counter
increments. -/
theorem doSend_of_ne (w : World) (h : jsTrim w.app.ui.inputValue ≠ "") :
    (doSend w).app.ui.messages
        = w.app.ui.messages ++ [⟨.user, jsTrim w.app.ui.inputValue⟩]
      ∧ (doSend w).pending
          = w.pending ++ [⟨jsTrim w.app.ui.inputValue, jsOrNull w.app.currentConversationId⟩]
      ∧ (doSend w).issued = w.issued + 1 := by
  unfold doSend
  rw [if_neg h]
  refine ⟨?_, rfl, rfl⟩
  simpa using
    addMessageToUI_messages { w.app.ui with inputValue := "" } .user (jsTrim w.app.ui.inputValue)

/-- Every fetch outcome makes `sendMessage` append exactly one assistant-role
message, whose text is `assistantReplyText`. -/
theorem sendMessageFinish_messages (app : AppState) (outcome : ChatOutcome) :
    (sendMessageFinish app outcome).ui.messages
      = app.ui.messages ++ [⟨.assistant, assistantReplyText outcome⟩] := by
  cases outcome with
  | networkError => simpa [sendMessageFinish, assistantReplyText] using
      addMessageToUI_messages app.ui .assistant chatFailureText
  | response ok body =>
    simp only [sendMessageFinish, assistantReplyText]
    split
    · split <;> simp [addMessageToUI_messages]
    · simp [addMessageToUI_messages]

/-! ## Claim theorems -/

/-- C1, counterexample: the claim says an adopted conversation id is never
changed by a later successful send; but starting a session whose id is
already `"a"`, one full send whose successful response carries
`conversation_id = "b"` leaves the session id at `"b"`, not `"a"`. -/
theorem C1_counterexample :
    (deliverResponse
        (doSend (setInput
          { app := { ui := { inputValue := "", placeholder := false, messages := [] }
                     currentConversationId := some "a" }
            pending := [], issued := 0 } "hi"))
        (.response true (some { response := some "r", conversation_id := some "b"
                                detail := none }))).app.currentConversationId = some "b"
    ∧ (some "b" : Option String) ≠ some "a" := by decide

/-- C1 (amended): on a successful response, `sendMessage` adopts the carried
conversation id unconditionally whenever it is present and non-empty — also
when an id was already adopted, in which case the old id is overwritten; a
successful response without a (non-empty) conversation id leaves the session
id unchanged. -/
theorem C1_amended_id_adoption (app : AppState) (d : ChatData) :
    (sendMessageFinish app (.response true (some d))).currentConversationId
      = match d.conversation_id with
        | some s => if s = "" then app.currentConversationId else some s
        | none => app.currentConversationId := by
  cases hc : d.conversation_id with
  | none => simp [sendMessageFinish, jsTruthy, hc]
  | some s =>
    by_cases hs : s = "" <;> simp [sendMessageFinish, jsTruthy, hc, hs]

/-- C2, counterexample: the claim says a second send issued while one is
outstanding is rejected, appending no message and issuing no request; but
after `doSend` of "first" leaves a request outstanding, a second send of
"second" appends a further message, issues a further request, and leaves two
requests outstanding. -/
theorem C2_counterexample :
    (doSend (setInput initialWorld "first")).pending ≠ []
    ∧ (doSend (setInput (doSend (setInput initialWorld "first")) "second")).app.ui.messages.length
        = (doSend (setInput initialWorld "first")).app.ui.messages.length + 1
    ∧ (doSend (setInput (doSend (setInput initialWorld "first")) "second")).issued
        = (doSend (setInput initialWorld "first")).issued + 1
    ∧ (doSend (setInput (doSend (setInput initialWorld "first")) "second")).pending.length
        = (doSend (setInput initialWorld "first")).pending.length + 1 := by decide

/-- C2 (amended): `sendMessage` has no busy guard: a send call made while
another request is outstanding is processed exactly like any other send — it
appends its user message, issues its own request (which runs concurrently
with the outstanding one), and is neither rejected nor queued. -/
theorem C2_amended_no_busy_guard (w : World) (_hp : w.pending ≠ [])
    (h : jsTrim w.app.ui.inputValue ≠ "") :
    (doSend w).app.ui.messages
        = w.app.ui.messages ++ [⟨.user, jsTrim w.app.ui.inputValue⟩]
    ∧ (doSend w).issued = w.issued + 1
    ∧ (doSend w).pending
        = w.pending ++ [⟨jsTrim w.app.ui.inputValue, jsOrNull w.app.currentConversationId⟩] :=
  ⟨(doSend_of_ne w h).1, (doSend_of_ne w h).2.2, (doSend_of_ne w h).2.1⟩

/-- Witness for C2 (amended) on a concrete world with an outstanding request. -/
theorem C2_amended_no_busy_guard_witness :
    (doSend (setInput initialWorld "first")).pending ≠ []
    ∧ jsTrim (setInput (doSend (setInput initialWorld "first")) "second").app.ui.inputValue ≠ ""
    ∧ (doSend (setInput (doSend (setInput initialWorld "first")) "second")).issued
        = (setInput (doSend (setInput initialWorld "first")) "second").issued + 1 :=
  ⟨by decide, by decide,
    (C2_amended_no_busy_guard (setInput (doSend (setInput initialWorld "first")) "second")
      (by decide) (by decide)).2.1⟩

/-- C3, counterexample: the claim says the indicator goes offline exactly on
network failure or non-2xx, and that a 2xx with an unparseable body is still
online; but the code never consults the HTTP status: a non-2xx response with
a JSON body is shown online, and a 2xx response whose body fails to parse is
shown offline. -/
theorem C3_counterexample :
    checkSystemStatus (.response false (some { model := some "llama" }))
      = { backend := "✓ Online", rag := "RAG not configured", model := "llama" }
    ∧ checkSystemStatus (.response true none)
      = { backend := "✗ Offline", rag := "-", model := "-" } := by decide

/-- C3 (amended): the startup probe sets the indicator to offline exactly
when the request network-fails or the 'response body fails to parse as JSON;
the HTTP status is never examined.  The probe itself is total (every branch
is caught), so it never throws to its caller. -/
theorem C3_amended_offline_iff (o : StatusOutcome) :
    ((checkSystemStatus o).backend = "✗ Offline"
        ↔ o = .networkError ∨ ∃ ok, o = .response ok none)
    ∧ ((checkSystemStatus o).backend = "✗ Offline"
        ∨ (checkSystemStatus o).backend = "✓ Online") := by
  cases o with
  | networkError => exact ⟨⟨fun _ => Or.inl rfl, fun _ => rfl⟩, Or.inl rfl⟩
  | response ok body =>
    cases body with
    | none => exact ⟨⟨fun _ => Or.inr ⟨ok, rfl⟩, fun _ => rfl⟩, Or.inl rfl⟩
    | some d =>
      refine ⟨⟨fun hEq => ?_, fun hOr => ?_⟩, Or.inr rfl⟩
      · have hLit : ("✓ Online" : String) = "✗ Offline" := hEq
        exact absurd hLit (by decide)
      · rcases hOr with hOr | ⟨ok2, hOr⟩ <;> simp at hOr

/-- C4, counterexample: the claim says every failing send — including a
malformed response body — appends the fixed failure explanation; but a 2xx
response whose body fails to parse is handled on the success path and appends
the literal placeholder "(empty response)", which is not the failure text. -/
theorem C4_counterexample :
    (sendMessageFinish
        { ui := { inputValue := "", placeholder := false, messages := [⟨.user, "q"⟩] }
          currentConversationId := none }
        (.response true none)).ui.messages
      = [⟨.user, "q"⟩, ⟨.assistant, "(empty response)"⟩]
    ∧ "(empty response)" ≠ chatFailureText := by decide

/-- C4 (amended): on a network error or a non-success status, the
already-appended user message is kept, exactly one assistant-role message
with the fixed failure text is appended, and the session id is untouched; a
2xx response with a malformed body is instead treated as a success whose
assistant message is the literal placeholder "(empty response)" (and, the
body being empty, also leaves the id untouched).  Each case changes nothing
but the message list, so the session stays usable. -/
theorem C4_amended_failure_paths (app : AppState) (body : Option ChatData) :
    (sendMessageFinish app .networkError).ui.messages
        = app.ui.messages ++ [⟨.assistant, chatFailureText⟩]
    ∧ (sendMessageFinish app .networkError).currentConversationId
        = app.currentConversationId
    ∧ (sendMessageFinish app (.response false body)).ui.messages
        = app.ui.messages ++ [⟨.assistant, chatFailureText⟩]
    ∧ (sendMessageFinish app (.response false body)).currentConversationId
        = app.currentConversationId
    ∧ (sendMessageFinish app (.response true none)).ui.messages
        = app.ui.messages ++ [⟨.assistant, "(empty response)"⟩]
    ∧ (sendMessageFinish app (.response true none)).currentConversationId
        = app.currentConversationId := by
  refine ⟨?_, rfl, ?_, rfl, ?_, ?_⟩
  · simpa [sendMessageFinish] using addMessageToUI_messages app.ui .assistant chatFailureText
  · simpa [sendMessageFinish] using addMessageToUI_messages app.ui .assistant chatFailureText
  · simpa [sendMessageFinish, jsTruthy, jsOrStr] using
      addMessageToUI_messages app.ui .assistant "(empty response)"
  · simp [sendMessageFinish, jsTruthy]

/-- C5: the renderer escapes `&`, `<`, `>` first and then substitutes in the
listed order (bold, italic, fenced code, inline code, dash bullets, double
then single newlines).  The spec's round-trip fixture gets its strong and
code wrappers; an input with raw angle brackets keeps them escaped (no
unescaped bracket of the original survives); and a fenced block with inline
code shows the fence is consumed before the inline-code rule. -/
theorem C5_render_roundtrip :
    formatMessageText "**bold** and `code`" = "<b>bold</b> and <code>code</code>"
    ∧ formatMessageText "**bo<ld** & `co>de`"
        = "<b>bo&lt;ld</b> &amp; <code>co&gt;de</code>"
    ∧ formatMessageText "```a\nb``` x `y`"
        = "<pre><code>a<br>b</code></pre> x <code>y</code>" := by
  exact ⟨rfl, rfl, rfl⟩

/-- C6: a send whose input is empty after trimming is a complete no-op: the
returned world is the old one — no message appended, no request issued, no
UI state (input box, placeholder, conversation id) mutated. -/
theorem C6_empty_input_noop (w : World) (h : jsTrim w.app.ui.inputValue = "") :
    doSend w = w := by
  unfold doSend
  rw [if_pos h]

/-- Witness for C6 on the whitespace-only input "   ". -/
theorem C6_empty_input_noop_witness :
    jsTrim (setInput initialWorld "   ").app.ui.inputValue = ""
    ∧ doSend (setInput initialWorld "   ") = setInput initialWorld "   " :=
  ⟨by decide, C6_empty_input_noop (setInput initialWorld "   ") (by decide)⟩

/-- C7: a send with non-empty trimmed input appends exactly one user-role
entry carrying the trimmed text, synchronously in the phase before the fetch
resolves (so independent of backend latency or failure), and issues exactly
one request. -/
theorem C7_user_message_appended (w : World) (h : jsTrim w.app.ui.inputValue ≠ "") :
    (doSend w).app.ui.messages
        = w.app.ui.messages ++ [⟨.user, jsTrim w.app.ui.inputValue⟩]
    ∧ (doSend w).pending
        = w.pending ++ [⟨jsTrim w.app.ui.inputValue, jsOrNull w.app.currentConversationId⟩]
    ∧ (doSend w).issued = w.issued + 1 :=
  doSend_of_ne w h

/-- Witness for C7 on the input "  hi  ". -/
theorem C7_user_message_appended_witness :
    jsTrim (setInput initialWorld "  hi  ").app.ui.inputValue ≠ ""
    ∧ (doSend (setInput initialWorld "  hi  ")).app.ui.messages = [⟨.user, "hi"⟩] :=
  ⟨by decide,
    ((C7_user_message_appended (setInput initialWorld "  hi  ") (by decide)).1).trans (by decide)⟩

/-- C8: export with a falsy conversation id (null or empty) alerts "No
conversation to export." and issues no request; export with a valid id whose
response fails issues exactly one request, delivers no file, and its only
effect is the failure alert. -/
theorem C8_export_guard (out : ExportOutcome) (id : String) (hid : id ≠ "") :
    exportChat none out
        = { requests := 0, alerts := ["No conversation to export."], downloads := [] }
    ∧ exportChat (some "") out
        = { requests := 0, alerts := ["No conversation to export."], downloads := [] }
    ∧ exportChat (some id) (.response false)
        = { requests := 1, alerts := ["Failed to export chat."], downloads := [] } := by
  refine ⟨rfl, rfl, ?_⟩
  simp [exportChat, jsTruthy, hid]

/-- Witness for C8 at the conversation id "c1". -/
theorem C8_export_guard_witness :
    ("c1" : String) ≠ ""
    ∧ exportChat (some "c1") (.response false)
        = { requests := 1, alerts := ["Failed to export chat."], downloads := [] } :=
  ⟨by decide, (C8_export_guard (.networkError "m") "c1" (by decide)).2.2⟩

/-- C9: delete without confirmation is a complete no-op (no request, no
registry change, no alert); with confirmation, a network error or failing
response leaves the registry untouched and surfaces an alert; only a
successful response removes the entry, and removing an id absent from the
registry leaves it unchanged. -/
theorem C9_delete_rules (docs : List (String × DocumentMetadata))
    (doc_id msg : String) (outcome : DeleteOutcome) :
    deleteDocument docs doc_id false outcome
        = { documents := docs, requests := 0, alerts := [] }
    ∧ (deleteDocument docs doc_id true (.networkError msg)).documents = docs
    ∧ (deleteDocument docs doc_id true (.networkError msg)).alerts
        = ["Error deleting document: " ++ msg]
    ∧ (deleteDocument docs doc_id true (.response false)).documents = docs
    ∧ (deleteDocument docs doc_id true (.response false)).alerts
        = ["Error deleting document: Delete failed"]
    ∧ (deleteDocument docs doc_id true (.response true)).documents
        = docs.filter (fun p => !(p.1 == doc_id))
    ∧ (docs.all (fun p => !(p.1 == doc_id)) = true →
        (deleteDocument docs doc_id true (.response true)).documents = docs) := by
  refine ⟨rfl, rfl, rfl, rfl, rfl, rfl, fun habs => ?_⟩
  simpa [deleteDocument] using
    List.filter_eq_self.mpr (fun a ha => List.all_eq_true.mp habs a ha)

/-- Witness for C9: on the one-entry sample registry, a failing delete of the
present id "d1" leaves the registry untouched, a successful delete of "d1"
removes the entry, and a successful delete of the absent id "d2" leaves the
registry unchanged. -/
theorem C9_delete_rules_witness :
    (deleteDocument sampleRegistry "d1" true (.response false)).documents = sampleRegistry
    ∧ (deleteDocument sampleRegistry "d1" true (.response true)).documents = []
    ∧ sampleRegistry.all (fun p => !(p.1 == "d2")) = true
    ∧ (deleteDocument sampleRegistry "d2" true (.response true)).documents = sampleRegistry :=
  ⟨(C9_delete_rules sampleRegistry "d1" "m" (.response false)).2.2.2.1,
   ((C9_delete_rules sampleRegistry "d1" "m" (.response true)).2.2.2.2.2.1).trans (by decide),
   by decide,
   (C9_delete_rules sampleRegistry "d2" "m" (.response true)).2.2.2.2.2.2 (by decide)⟩

/-- C10: a send with non-empty trimmed input appends exactly two entries over
its lifetime — first the user entry, then, whatever the fetch outcome, exactly
one assistant entry whose text is the fixed failure explanation on network
error or non-success status, and otherwise the response text or the literal
placeholder "(empty response)" when the response field is absent or empty; a
send with empty trimmed input appends nothing at all. -/
theorem C10_two_entries_per_send (w : World) (outcome : ChatOutcome) (d : ChatData) :
    (jsTrim w.app.ui.inputValue ≠ "" →
      (deliverResponse (doSend w) outcome).app.ui.messages
        = w.app.ui.messages ++ [⟨.user, jsTrim w.app.ui.inputValue⟩,
                                ⟨.assistant, assistantReplyText outcome⟩])
    ∧ (jsTrim w.app.ui.inputValue = "" → doSend w = w)
    ∧ assistantReplyText .networkError = chatFailureText
    ∧ assistantReplyText (.response false (some d)) = chatFailureText
    ∧ assistantReplyText (.response false none) = chatFailureText
    ∧ assistantReplyText (.response true none) = "(empty response)"
    ∧ assistantReplyText (.response true (some d))
        = match d.response with
          | some s => if s = "" then "(empty response)" else s
          | none => "(empty response)" := by
  refine ⟨?_, ?_, rfl, rfl, rfl, rfl, ?_⟩
  · intro h
    have h1 := (doSend_of_ne w h).1
    have h2 := sendMessageFinish_messages (doSend w).app outcome
    simp only [deliverResponse]
    rw [h2, h1, List.append_assoc]
    rfl
  · intro h
    unfold doSend
    rw [if_pos h]
  · cases hr : d.response with
    | none => simp [assistantReplyText, jsOrStr, hr]
    | some s => by_cases hs : s = "" <;> simp [assistantReplyText, jsOrStr, hr, hs]

/-- Witness for C10: one full failing send of "hi" from a fresh world, and
one empty send of "   ". -/
theorem C10_two_entries_per_send_witness :
    (jsTrim (setInput initialWorld "hi").app.ui.inputValue ≠ ""
      ∧ (deliverResponse (doSend (setInput initialWorld "hi")) .networkError).app.ui.messages
          = [⟨.user, "hi"⟩, ⟨.assistant, chatFailureText⟩])
    ∧ (jsTrim (setInput initialWorld "   ").app.ui.inputValue = ""
      ∧ doSend (setInput initialWorld "   ") = setInput initialWorld "   ") :=
  ⟨⟨by decide,
    ((C10_two_entries_per_send (setInput initialWorld "hi") .networkError
        ⟨none, none, none⟩).1 (by decide)).trans (by decide)⟩,
   ⟨by decide,
    (C10_two_entries_per_send (setInput initialWorld "   ") .networkError
        ⟨none, none, none⟩).2.1 (by decide)⟩⟩

end Dravis
